import Mathlib

/-
Verification of the ceremony-orchestration and ephemeral-state subsystem of
the SLH_Labo2 repository (WebAuthn-style passwordless authentication).

The definitions below are a shallow embedding of:
  - src/src/backend/handlers_unauth.rs  (the HTTP handlers: register_begin,
    register_complete, login_begin, login_complete, validate_account,
    recover_account, reset_account, logout)
  - src/src/utils/webauthn.rs           (begin/complete registration and
    authentication, the CREDENTIAL_STORE)
  - src/src/consts.rs                   (DOMAIN, HTTP_PORT)

External collaborators (the webauthn-rs crypto library, the tokio session
layer, SMTP) appear as oracle values: their outcomes are universally
quantified inputs of the handler functions.  The database module
(src/database/{user,token}.rs) is NOT part of the provided sources; its
operations are modelled from the spec (section 6) and say so in their doc
comments.

The in-memory HashMaps guarded by tokio RwLocks (REGISTRATION_STATES,
AUTHENTICATION_STATES, CREDENTIAL_STORE) are modelled as association lists
inside an explicit World state threaded through the handlers.
-/

set_option autoImplicit false

namespace SLH

/-! ## Association-list model of the in-memory HashMaps -/

/-- Lookup of the value stored under a key, mirroring HashMap get. -/
def lookupA {α : Type} : List (String × α) → String → Option α
  | [], _ => none
  | (k, v) :: rest, key => if k = key then some v else lookupA rest key

/-- Removal of the entry stored under a key, mirroring HashMap remove. -/
def eraseA {α : Type} : List (String × α) → String → List (String × α)
  | [], _ => []
  | (k, v) :: rest, key =>
      if k = key then eraseA rest key else (k, v) :: eraseA rest key

/-- Insertion (with replacement) of an entry, mirroring HashMap insert. -/
def insertA {α : Type} (l : List (String × α)) (key : String) (v : α) :
    List (String × α) :=
  (key, v) :: eraseA l key

theorem lookupA_eraseA {α : Type} (l : List (String × α)) (k k' : String) :
    lookupA (eraseA l k) k' = if k' = k then none else lookupA l k' := by
  induction l with
  | nil => simp [eraseA, lookupA]
  | cons hd tl ih =>
      obtain ⟨hk, hv⟩ := hd
      by_cases h1 : hk = k <;> by_cases h2 : k' = k
      · simp_all [eraseA, lookupA]
      · have h2' : ¬ k = k' := fun hh => h2 (Eq.symm hh)
        simp_all [eraseA, lookupA]
      · simp_all [eraseA, lookupA]
      · simp_all [eraseA, lookupA]

theorem lookupA_insertA {α : Type} (l : List (String × α)) (k k' : String)
    (v : α) :
    lookupA (insertA l k v) k' = if k' = k then some v else lookupA l k' := by
  by_cases h : k' = k
  · subst h; simp [insertA, lookupA]
  · have h' : ¬ k = k' := fun hh => h (Eq.symm hh)
    simp [insertA, lookupA, lookupA_eraseA, h, h']

/-! ## Data model -/

/-- Abstract stand-in for webauthn-rs PasskeyRegistration protocol state. -/
abbrev PasskeyRegistration := Nat

/-- Abstract stand-in for webauthn-rs PasskeyAuthentication protocol state. -/
abbrev PasskeyAuthentication := Nat

/-- Abstract stand-in for webauthn-rs Passkey credential material. -/
abbrev Passkey := Nat

/-- Struct StoredRegistrationState of src/src/utils/webauthn.rs. -/
structure StoredRegistrationState where
  registration_state : PasskeyRegistration
  challenge : String
deriving DecidableEq

/-- Struct TimedStoredState of src/src/backend/handlers_unauth.rs — the
stored authentication state plus the server challenge. -/
structure TimedStoredState where
  state : PasskeyAuthentication
  server_challenge : String
deriving DecidableEq

/-- Modelled from the spec: the durable UserRecord held by the external user
store (src/database/user.rs is not among the provided sources) —
first/last name, the verified flag, and the optionally attached passkey. -/
structure UserRecord where
  first_name : String
  last_name : String
  verified : Bool
  passkey : Option Passkey
deriving DecidableEq

/-- Modelled from the spec: the durable store backing the user and token
collaborators, keyed by email (users) and by opaque token value (tokens,
each mapping to its owner email). -/
structure Db where
  users : List (String × UserRecord)
  tokens : List (String × String)
deriving DecidableEq

/-- Observable side effects of the handlers, in occurrence order. -/
inductive Event where
  | credRecorded (email : String)
  | userCreated (email first last : String)
  | passkeyAttached (email : String)
  | tokenIssued (email tok : String)
  | mailSent (recipient subject body : String)
  | sessionEstablished
deriving DecidableEq

/-- Whole-process state: the three lock-guarded maps of the source, the
external durable store, the session flag and the effect trace. -/
structure World where
  registration_states : List (String × StoredRegistrationState)
  authentication_states : List (String × TimedStoredState)
  credential_store : List (String × Passkey)
  db : Db
  session_authenticated : Bool
  events : List Event
deriving DecidableEq

/-! ## Constants (src/src/consts.rs) and message bodies -/

/-- Constant DOMAIN of src/src/consts.rs. -/
def DOMAIN : String := "localhost"

/-- Constant HTTP_PORT of src/src/consts.rs. -/
def HTTP_PORT : Nat := 8080

/-- Subject line of the validation mail sent by register_complete. -/
def accountValidationSubject : String := "Account Validation"

/-- Subject line of the recovery mail sent by recover_account. -/
def accountRecoverySubject : String := "Account Recovery"

/-- Body of the validation mail of register_complete: the format string of
handlers_unauth.rs line 202 with DOMAIN, HTTP_PORT and the token filled in. -/
def validationMailBody (tok : String) : String :=
  "Click here to validate your account: http://" ++ DOMAIN ++ ":"
    ++ toString HTTP_PORT ++ "/validate/" ++ tok

/-- Body of the recovery mail of recover_account (handlers_unauth.rs
line 350). -/
def recoveryMailBody (tok : String) : String :=
  "Click here to recover your account: http://" ++ DOMAIN ++ ":"
    ++ toString HTTP_PORT ++ "/recover/" ++ tok

/-- Separator used by the email validity check. -/
def atChar : Char := '@'

/-- Dot character used by the email validity check. -/
def dotChar : Char := '.'

/-- Split of a character list at its unique at-sign; none when the at-sign
is absent or occurs more than once. -/
def splitAtSign : List Char → Option (List Char × List Char)
  | [] => none
  | c :: rest =>
      if c = atChar then
        if rest.contains atChar then none else some ([], rest)
      else
        match splitAtSign rest with
        | some (lp, dp) => some (c :: lp, dp)
        | none => none

/-- Modelled from the spec: syntactic email validity as enforced by the
external validator collaborator behind EmailInput (the validate(email)
derive of handlers_unauth.rs lines 31-48; the validator crate itself is not
part of the sources).  Simplified to: one at-sign splitting a nonempty local
part from a nonempty domain part that contains a dot. -/
def validEmail (s : String) : Bool :=
  match splitAtSign s.data with
  | some (lp, dp) => (!lp.isEmpty) && (!dp.isEmpty) && (dp.contains dotChar)
  | none => false

/-! ## Spec-modelled database collaborators

The module src/database/{user,token}.rs is referenced by the handlers but is
not among the provided sources; the operations below are modelled from the
spec, section 6 (user store: exists/create/get/verify/setCredential; token
store: generation and exactly-once consumption keyed by opaque string).
Every operation the spec types as fallible (Ok|Err) takes a fault flag
modelling an I/O failure of the store. -/

/-- Modelled from the spec: user store exists(email) -> bool, Result-wrapped
as its callers unwrap it. -/
def user_exists (db : Db) (fault : Bool) (email : String) :
    Except Unit Bool :=
  if fault then .error () else .ok (lookupA db.users email).isSome

/-- Modelled from the spec: user store get(email) -> UserRecord | Err. -/
def user_get (db : Db) (fault : Bool) (email : String) :
    Except Unit UserRecord :=
  if fault then .error ()
  else
    match lookupA db.users email with
    | some u => .ok u
    | none => .error ()

/-- Modelled from the spec: user store create(email, first, last) -> Ok|Err;
the created record has verified = false and no credential attached yet. -/
def user_create (db : Db) (fault : Bool) (email first last : String) :
    Except Unit Db :=
  if fault then .error ()
  else .ok { db with users := insertA db.users email ⟨first, last, false, none⟩ }

/-- Modelled from the spec: user store setCredential(email, material) ->
Ok|Err, attaching the passkey to the existing record. -/
def user_set_passkey (db : Db) (fault : Bool) (email : String) (pk : Passkey) :
    Except Unit Db :=
  if fault then .error ()
  else
    match lookupA db.users email with
    | none => .error ()
    | some u =>
        .ok { db with users := insertA db.users email { u with passkey := some pk } }

/-- Modelled from the spec: user store verify(email) -> Ok|Err, flipping the
verified flag of the existing record to true. -/
def user_verify (db : Db) (fault : Bool) (email : String) : Except Unit Db :=
  if fault then .error ()
  else
    match lookupA db.users email with
    | none => .error ()
    | some u =>
        .ok { db with users := insertA db.users email { u with verified := true } }

/-- Modelled from the spec: token store issue — generates an unguessable
token (supplied here as tokenValue by the oracle), stores tokenValue mapped
to the owner email, and returns it. -/
def token_generate (db : Db) (fault : Bool) (email tokenValue : String) :
    Except Unit (String × Db) :=
  if fault then .error ()
  else .ok (tokenValue, { db with tokens := insertA db.tokens tokenValue email })

/-- Modelled from the spec: token store consume(token_value) -> identity |
NotFound — atomically removes and returns the owning identity, or fails if
the token is unknown or already consumed. -/
def token_consume (db : Db) (tokenValue : String) :
    Except Unit (String × Db) :=
  match lookupA db.tokens tokenValue with
  | none => .error ()
  | some email => .ok (email, { db with tokens := eraseA db.tokens tokenValue })

/-! ## The webauthn layer (src/src/utils/webauthn.rs) -/

/-- Function complete_registration of webauthn.rs: asks the crypto
collaborator to finish the passkey registration (its outcome is the oracle
value finishResult: some passkey on success, none when WEBAUTHN rejects the
response) and on success inserts the passkey into CREDENTIAL_STORE under the
user email.  Returns the updated credential store. -/
def complete_registration (credential_store : List (String × Passkey))
    (user_email : String) (finishResult : Option Passkey) :
    Except Unit (List (String × Passkey)) :=
  match finishResult with
  | none => .error ()
  | some passkey => .ok (insertA credential_store user_email passkey)

/-- Function begin_authentication of webauthn.rs: looks the user's passkey
up in CREDENTIAL_STORE (error when absent) and asks the crypto collaborator
to start a passkey authentication (oracle values startOk, challenge,
auth_state).  Returns the challenge and the protocol state. -/
def begin_authentication (credential_store : List (String × Passkey))
    (user_email : String) (startOk : Bool) (challenge : String)
    (auth_state : PasskeyAuthentication) :
    Except Unit (String × PasskeyAuthentication) :=
  match lookupA credential_store user_email with
  | none => .error ()
  | some _ => if startOk then .ok (challenge, auth_state) else .error ()

/-- Model of the client_data_json carried inside a PublicKeyCredential
response: whether it decodes as UTF-8, whether it parses as JSON, and the
challenge field it contains (none when the field is missing or not a
string). -/
structure ClientData where
  utf8Ok : Bool
  jsonOk : Bool
  challenge : Option String
deriving DecidableEq

/-- Errors of complete_authentication of webauthn.rs, in source order. -/
inductive AuthError where
  | clientDataDecodeFailed
  | clientDataParseFailed
  | missingChallenge
  | challengeMismatch
  | authenticationRejected
deriving DecidableEq

/-- Function complete_authentication of webauthn.rs: decodes and parses
client_data_json, extracts its challenge field, compares it against the
server challenge recorded at begin time (mismatch is the Invalid-challenge
error), and only then asks the crypto collaborator to finish the passkey
authentication (oracle value finishOk). -/
def complete_authentication (client_data : ClientData)
    (server_challenge : String) (finishOk : Bool) : Except AuthError Unit :=
  if !client_data.utf8Ok then .error .clientDataDecodeFailed
  else if !client_data.jsonOk then .error .clientDataParseFailed
  else
    match client_data.challenge with
    | none => .error .missingChallenge
    | some challenge =>
        if challenge ≠ server_challenge then .error .challengeMismatch
        else if finishOk then .ok () else .error .authenticationRejected

/-! ## Handler errors (src/src/backend/handlers_unauth.rs) -/

/-- HTTP status classes the handlers answer with. -/
inductive Status where
  | badRequest
  | unauthorized
  | internalServerError
deriving DecidableEq

/-- The error responses of the handlers of handlers_unauth.rs, one
constructor per distinct error site. -/
inductive HandlerError where
  | emailRequired
  | emailInvalid
  | firstNameRequired
  | lastNameRequired
  | stateIdRequired
  | responseRequired
  | identityConflict
  | stateNotFound
  | malformedResponse
  | ceremonyFailure
  | passkeyNotFound
  | userCreateFailed
  | setPasskeyFailed
  | tokenGenerateFailed
  | mailSendFailed
  | userNotFound
  | userNotVerified
  | beginAuthenticationFailed
  | authenticationFailed (e : AuthError)
  | sessionFailed
deriving DecidableEq

/-- Status each error is surfaced with, read off the StatusCode literals of
handlers_unauth.rs.  The crypto rejection of register_complete
(ceremonyFailure, line 166) is INTERNAL_SERVER_ERROR; the one of
login_complete (authenticationFailed, line 295) is UNAUTHORIZED. -/
def HandlerError.status : HandlerError → Status
  | .ceremonyFailure => .internalServerError
  | .passkeyNotFound => .internalServerError
  | .userCreateFailed => .internalServerError
  | .setPasskeyFailed => .internalServerError
  | .tokenGenerateFailed => .internalServerError
  | .mailSendFailed => .internalServerError
  | .beginAuthenticationFailed => .internalServerError
  | .sessionFailed => .internalServerError
  | .authenticationFailed _ => .unauthorized
  | _ => .badRequest

/-- Result of one handler invocation: a success value, an error response, or
a panic (an unwrap on an Err). -/
inductive Outcome (α : Type) where
  | ok : α → Outcome α
  | err : HandlerError → Outcome α
  | panicked : Outcome α
deriving DecidableEq

/-! ## register_begin -/

/-- The fields register_begin reads from its JSON payload. -/
structure RegisterBeginPayload where
  email : Option String
  reset_mode : Option Bool
deriving DecidableEq

/-- External outcomes register_begin depends on: a user-store fault for the
exists call, the challenge and protocol state produced by
start_passkey_registration (which the source unwraps with expect, so it is
modelled as always succeeding), and the fresh uuid state_id. -/
structure RegisterBeginOracle where
  existsFault : Bool
  challenge : String
  reg_state : PasskeyRegistration
  state_id : String
deriving DecidableEq

/-- Unwrap-or on a fallible collaborator result, mirroring Result unwrap_or. -/
def unwrapOr {ε α : Type} (x : Except ε α) (d : α) : α :=
  match x with
  | .ok a => a
  | .error _ => d

/-- Handler register_begin of handlers_unauth.rs: extracts email and
reset_mode, validates the email, rejects an already-existing account unless
in reset mode, starts the registration ceremony and stores the protocol
state with the issued challenge under a fresh state_id in
REGISTRATION_STATES.  Returns the challenge and the state_id. -/
def register_begin (w : World) (p : RegisterBeginPayload)
    (o : RegisterBeginOracle) : Outcome (String × String) × World :=
  match p.email with
  | none => (.err .emailRequired, w)
  | some email =>
      let reset_mode := p.reset_mode.getD false
      if !validEmail email then (.err .emailInvalid, w)
      else if !reset_mode && unwrapOr (user_exists w.db o.existsFault email) false then
        (.err .identityConflict, w)
      else
        (.ok (o.challenge, o.state_id),
          { w with registration_states :=
              (insertA w.registration_states o.state_id
                ⟨o.reg_state, o.challenge⟩) })

/-! ## register_complete -/

/-- Model of the response field of the register_complete payload: whether it
deserializes into a RegisterPublicKeyCredential. -/
structure RegResponse where
  wellFormed : Bool
deriving DecidableEq

/-- The fields register_complete reads from its JSON payload. -/
structure RegisterCompletePayload where
  email : Option String
  first_name : Option String
  last_name : Option String
  state_id : Option String
  response : Option RegResponse
deriving DecidableEq

/-- External outcomes register_complete depends on: the
finish_passkey_registration result (some passkey or rejection), fault flags
for the user create, the passkey attach, the token generation and the mail
delivery, and the generated token value. -/
structure RegisterCompleteOracle where
  finishResult : Option Passkey
  createFault : Bool
  setPasskeyFault : Bool
  tokenFault : Bool
  tokenValue : String
  mailFault : Bool
deriving DecidableEq

/-- Continuation of register_complete after the stored state has been
removed from REGISTRATION_STATES (handlers_unauth.rs lines 147-214): parse
the response, finish the ceremony via complete_registration, read the
passkey back from CREDENTIAL_STORE, create the user, attach the passkey,
generate the validation token and send the validation mail. -/
def register_complete_core (w : World) (email first_name last_name : String)
    (responseField : Option RegResponse) (o : RegisterCompleteOracle) :
    Outcome Unit × World :=
  match responseField with
  | none => (.err .responseRequired, w)
  | some response =>
      if !response.wellFormed then (.err .malformedResponse, w)
      else
        match complete_registration w.credential_store email o.finishResult with
        | .error _ => (.err .ceremonyFailure, w)
        | .ok store2 =>
            let w2 := { w with credential_store := store2,
                               events := w.events ++ [.credRecorded email] }
            match lookupA w2.credential_store email with
            | none => (.err .passkeyNotFound, w2)
            | some passkey =>
                match user_create w2.db o.createFault email first_name last_name with
                | .error _ => (.err .userCreateFailed, w2)
                | .ok db1 =>
                    let w3 := { w2 with
                        db := db1,
                        events := w2.events ++ [.userCreated email first_name last_name] }
                    match user_set_passkey w3.db o.setPasskeyFault email passkey with
                    | .error _ => (.err .setPasskeyFailed, w3)
                    | .ok db2 =>
                        let w4 := { w3 with
                            db := db2,
                            events := w3.events ++ [.passkeyAttached email] }
                        match token_generate w4.db o.tokenFault email o.tokenValue with
                        | .error _ => (.err .tokenGenerateFailed, w4)
                        | .ok (validation_token, db3) =>
                            let w5 := { w4 with
                                db := db3,
                                events := w4.events ++ [.tokenIssued email validation_token] }
                            if o.mailFault then (.err .mailSendFailed, w5)
                            else
                              (.ok (),
                                { w5 with events := w5.events ++
                                    [.mailSent email accountValidationSubject
                                      (validationMailBody validation_token)] })

/-- Handler register_complete of handlers_unauth.rs: extracts and validates
email, first and last name and state_id, takes (removes) the stored
registration state from REGISTRATION_STATES — failing with the
Invalid-state error when absent — and runs register_complete_core on the
remainder of the function. -/
def register_complete (w : World) (p : RegisterCompletePayload)
    (o : RegisterCompleteOracle) : Outcome Unit × World :=
  match p.email with
  | none => (.err .emailRequired, w)
  | some email =>
      if !validEmail email then (.err .emailInvalid, w)
      else
        match p.first_name with
        | none => (.err .firstNameRequired, w)
        | some first_name =>
            match p.last_name with
            | none => (.err .lastNameRequired, w)
            | some last_name =>
                match p.state_id with
                | none => (.err .stateIdRequired, w)
                | some state_id =>
                    match lookupA w.registration_states state_id with
                    | none => (.err .stateNotFound, w)
                    | some _stored_state =>
                        register_complete_core
                          { w with registration_states :=
                              (eraseA w.registration_states state_id) }
                          email first_name last_name p.response o

/-! ## login_begin -/

/-- The field login_begin reads from its JSON payload. -/
structure LoginBeginPayload where
  email : Option String
deriving DecidableEq

/-- External outcomes login_begin depends on: user-store fault flags for the
exists and get calls, the start_passkey_authentication outcome, and the
fresh uuid state_id. -/
structure LoginBeginOracle where
  existsFault : Bool
  getFault : Bool
  startOk : Bool
  challenge : String
  auth_state : PasskeyAuthentication
  state_id : String
deriving DecidableEq

/-- Handler login_begin of handlers_unauth.rs: extracts and validates the
email, rejects a non-existing user, then reads the user record back with
user get and unwraps it — a get error at that point panics the handler
(line 236) — rejects an unverified user, starts the authentication ceremony
and stores the protocol state with the server challenge under a fresh
state_id in AUTHENTICATION_STATES. -/
def login_begin (w : World) (p : LoginBeginPayload) (o : LoginBeginOracle) :
    Outcome (String × String) × World :=
  match p.email with
  | none => (.err .emailRequired, w)
  | some email =>
      if !validEmail email then (.err .emailInvalid, w)
      else if !unwrapOr (user_exists w.db o.existsFault email) false then
        (.err .userNotFound, w)
      else
        match user_get w.db o.getFault email with
        | .error _ => (.panicked, w)
        | .ok u =>
            if !u.verified then (.err .userNotVerified, w)
            else
              match begin_authentication w.credential_store email o.startOk
                  o.challenge o.auth_state with
              | .error _ => (.err .beginAuthenticationFailed, w)
              | .ok (challenge, auth_state) =>
                  (.ok (challenge, o.state_id),
                    { w with authentication_states :=
                        (insertA w.authentication_states o.state_id
                          ⟨auth_state, challenge⟩) })

/-! ## login_complete -/

/-- Model of the response field of the login_complete payload: whether it
deserializes into a PublicKeyCredential, and the client data it carries. -/
structure AuthResponse where
  parseOk : Bool
  client_data : ClientData
deriving DecidableEq

/-- The fields login_complete reads from its JSON payload. -/
structure LoginCompletePayload where
  response : Option AuthResponse
  state_id : Option String
deriving DecidableEq

/-- External outcomes login_complete depends on: the
finish_passkey_authentication verdict and a session-store fault flag. -/
structure LoginCompleteOracle where
  finishOk : Bool
  sessionFault : Bool
deriving DecidableEq

/-- Continuation of login_complete after the stored state has been removed
from AUTHENTICATION_STATES (handlers_unauth.rs lines 285-302): parse the
credential, run complete_authentication against the stored server
challenge — any of its errors is answered with UNAUTHORIZED — and on
success establish the authenticated session and redirect to /home. -/
def login_complete_core (w : World) (response : AuthResponse)
    (stored_state : TimedStoredState) (o : LoginCompleteOracle) :
    Outcome Unit × World :=
  if !response.parseOk then (.err .malformedResponse, w)
  else
    match complete_authentication response.client_data
        stored_state.server_challenge o.finishOk with
    | .error e => (.err (.authenticationFailed e), w)
    | .ok _ =>
        if o.sessionFault then (.err .sessionFailed, w)
        else
          (.ok (),
            { w with
                session_authenticated := true,
                events := w.events ++ [.sessionEstablished] })

/-- Handler login_complete of handlers_unauth.rs: extracts the response and
state_id fields, takes (removes) the stored authentication state from
AUTHENTICATION_STATES — failing with the Invalid-state error when absent —
and runs login_complete_core on the remainder of the function. -/
def login_complete (w : World) (p : LoginCompletePayload)
    (o : LoginCompleteOracle) : Outcome Unit × World :=
  match p.response with
  | none => (.err .responseRequired, w)
  | some response =>
      match p.state_id with
      | none => (.err .stateIdRequired, w)
      | some state_id =>
          match lookupA w.authentication_states state_id with
          | none => (.err .stateNotFound, w)
          | some stored_state =>
              login_complete_core
                { w with authentication_states :=
                    (eraseA w.authentication_states state_id) }
                response stored_state o

/-! ## Token endpoints and the remaining handlers -/

/-- Redirect targets of the token endpoints and logout. -/
inductive RedirectTarget where
  | loginValidated
  | registerValidationFailed
  | registerInvalidToken
  | registerResetMode (email : String)
  | registerRecoveryFailed
  | root
deriving DecidableEq

/-- Handler validate_account of handlers_unauth.rs: consumes the
path-embedded token; on success marks the owning user verified and
redirects to the login page, and redirects to the register page with an
error otherwise. -/
def validate_account (w : World) (tok : String) (verifyFault : Bool) :
    RedirectTarget × World :=
  match token_consume w.db tok with
  | .error _ => (.registerInvalidToken, w)
  | .ok (email, db1) =>
      match user_verify db1 verifyFault email with
      | .ok db2 => (.loginValidated, { w with db := db2 })
      | .error _ => (.registerValidationFailed, { w with db := db1 })

/-- Handler reset_account of handlers_unauth.rs: consumes the path-embedded
recovery token; on success redirects into the registration flow in reset
mode for the owning email, and to the register page with an error
otherwise. -/
def reset_account (w : World) (tok : String) : RedirectTarget × World :=
  match token_consume w.db tok with
  | .ok (email, db1) => (.registerResetMode email, { w with db := db1 })
  | .error _ => (.registerRecoveryFailed, w)

/-- The field recover_account reads from its JSON payload. -/
structure RecoverPayload where
  email : Option String
deriving DecidableEq

/-- External outcomes recover_account depends on: a user-store fault for the
exists call, the token generation fault and value, and the mail fault. -/
structure RecoverOracle where
  existsFault : Bool
  tokenFault : Bool
  tokenValue : String
  mailFault : Bool
deriving DecidableEq

/-- Handler recover_account of handlers_unauth.rs: extracts the email (no
syntactic validation here), rejects a non-existing user, generates a
recovery token and sends the recovery mail. -/
def recover_account (w : World) (p : RecoverPayload) (o : RecoverOracle) :
    Outcome Unit × World :=
  match p.email with
  | none => (.err .emailRequired, w)
  | some email =>
      if !unwrapOr (user_exists w.db o.existsFault email) false then
        (.err .userNotFound, w)
      else
        match token_generate w.db o.tokenFault email o.tokenValue with
        | .error _ => (.err .tokenGenerateFailed, w)
        | .ok (recovery_token, db1) =>
            let w1 := { w with
                db := db1,
                events := w.events ++ [.tokenIssued email recovery_token] }
            if o.mailFault then (.err .mailSendFailed, w1)
            else
              (.ok (),
                { w1 with events := w1.events ++
                    [.mailSent email accountRecoverySubject
                      (recoveryMailBody recovery_token)] })

/-- Handler logout of handlers_unauth.rs: deletes the session and redirects
to the root page. -/
def logout (w : World) : RedirectTarget × World :=
  (.root, { w with session_authenticated := false })

/-! ## One step of the subsystem: any handler invocation -/

/-- One invocation of any handler of handlers_unauth.rs that touches state,
with its payload and oracle. -/
inductive Step where
  | regBegin (p : RegisterBeginPayload) (o : RegisterBeginOracle)
  | regComplete (p : RegisterCompletePayload) (o : RegisterCompleteOracle)
  | loginBegin (p : LoginBeginPayload) (o : LoginBeginOracle)
  | loginComplete (p : LoginCompletePayload) (o : LoginCompleteOracle)
  | validate (tok : String) (verifyFault : Bool)
  | recover (p : RecoverPayload) (o : RecoverOracle)
  | reset (tok : String)
  | logoutStep

/-- The world after one handler invocation. -/
def stepWorld (w : World) : Step → World
  | .regBegin p o => (register_begin w p o).2
  | .regComplete p o => (register_complete w p o).2
  | .loginBegin p o => (login_begin w p o).2
  | .loginComplete p o => (login_complete w p o).2
  | .validate tok f => (validate_account w tok f).2
  | .recover p o => (recover_account w p o).2
  | .reset tok => (reset_account w tok).2
  | .logoutStep => (logout w).2

/-! ## Lock-scope traces

The completion handlers bind the tokio RwLock write guards with plain lets
(states at handlers_unauth.rs lines 142 and 279); Rust drops such a guard
only at the end of the enclosing scope, which is the end of the handler
function.  The operation sequences below transcribe the success paths of
the two completion handlers with the lock events placed at the source's
acquisition and drop points. -/

/-- The three shared lock-guarded maps of the source. -/
inductive StoreId where
  | registrationStates
  | authenticationStates
  | credentialStore
deriving DecidableEq

/-- External collaborator calls occurring inside the completion handlers. -/
inductive ExtCall where
  | cryptoFinishRegistration
  | cryptoFinishAuthentication
  | dbUserCreate
  | dbSetPasskey
  | tokenGen
  | mailSend
  | sessionInsert
deriving DecidableEq

/-- One operation of a handler's lock-relevant trace. -/
inductive LockOp where
  | acquireWrite (s : StoreId)
  | releaseWrite (s : StoreId)
  | acquireRead (s : StoreId)
  | releaseRead (s : StoreId)
  | removeEntry (s : StoreId)
  | insertEntry (s : StoreId)
  | externalCall (c : ExtCall)
deriving DecidableEq

/-- Success-path operation trace of register_complete: the
REGISTRATION_STATES write guard is acquired at line 142 and, never being
dropped explicitly, is released only at function exit (after the mail
call); the CREDENTIAL_STORE write guard taken inside complete_registration
is released at that function's end, and the read guard of line 172 at the
end of its statement. -/
def register_complete_ops : List LockOp :=
  [ .acquireWrite .registrationStates,
    .removeEntry .registrationStates,
    .externalCall .cryptoFinishRegistration,
    .acquireWrite .credentialStore,
    .insertEntry .credentialStore,
    .releaseWrite .credentialStore,
    .acquireRead .credentialStore,
    .releaseRead .credentialStore,
    .externalCall .dbUserCreate,
    .externalCall .dbSetPasskey,
    .externalCall .tokenGen,
    .externalCall .mailSend,
    .releaseWrite .registrationStates ]

/-- Success-path operation trace of login_complete: the
AUTHENTICATION_STATES write guard is acquired at line 279 and released only
at function exit, after the crypto finish and the session insertion. -/
def login_complete_ops : List LockOp :=
  [ .acquireWrite .authenticationStates,
    .removeEntry .authenticationStates,
    .externalCall .cryptoFinishAuthentication,
    .externalCall .sessionInsert,
    .releaseWrite .authenticationStates ]

/-- Scan of a trace: true when some external call occurs while the write
guard of store s is held. -/
def heldDuringExternalGo (s : StoreId) : List LockOp → Bool → Bool
  | [], _ => false
  | op :: rest, held =>
      match op with
      | .acquireWrite t => heldDuringExternalGo s rest (held || (t == s))
      | .releaseWrite t => heldDuringExternalGo s rest (held && !(t == s))
      | .externalCall _ => held || heldDuringExternalGo s rest held
      | _ => heldDuringExternalGo s rest held

/-- True when the trace holds the write guard of store s across some
external collaborator call. -/
def heldDuringExternal (s : StoreId) (ops : List LockOp) : Bool :=
  heldDuringExternalGo s ops false

/-! ## Concrete sample state used by the witnesses -/

/-- A sample registered, verified user. -/
def sampleUser : UserRecord := ⟨"Jean", "Dupont", true, some 3⟩

/-- A sample world: one live registration state under sid, one live
authentication state under aid, one stored passkey, one registered user and
one issued token. -/
def sampleWorld : World :=
  { registration_states := [("sid", ⟨7, "chal"⟩)],
    authentication_states := [("aid", ⟨5, "authchal"⟩)],
    credential_store := [("a@x.com", 3)],
    db := { users := [("a@x.com", sampleUser)],
            tokens := [("tok1", "a@x.com")] },
    session_authenticated := false,
    events := [] }

/-! ## Helper lemmas -/

/-- The continuation after the take never touches REGISTRATION_STATES. -/
theorem register_complete_core_states (w : World) (e f l : String)
    (r : Option RegResponse) (o : RegisterCompleteOracle) :
    ((register_complete_core w e f l r o).2).registration_states
      = w.registration_states := by
  unfold register_complete_core
  try dsimp only
  repeat' split <;> try rfl

/-- The continuation after the take never touches AUTHENTICATION_STATES. -/
theorem login_complete_core_states (w : World) (r : AuthResponse)
    (st : TimedStoredState) (o : LoginCompleteOracle) :
    ((login_complete_core w r st o).2).authentication_states
      = w.authentication_states := by
  unfold login_complete_core
  try dsimp only
  repeat' split <;> try rfl

/-- A register_complete with well-formed fields and an unknown state_id is
answered with the Invalid-state error and returns the store untouched. -/
theorem register_complete_unknown_state (w : World)
    (p : RegisterCompletePayload) (o : RegisterCompleteOracle)
    (e f l sid : String) (he : p.email = some e) (hv : validEmail e = true)
    (hf : p.first_name = some f) (hl : p.last_name = some l)
    (hs : p.state_id = some sid)
    (hmiss : lookupA w.registration_states sid = none) :
    register_complete w p o = (.err .stateNotFound, w) := by
  simp [register_complete, he, hv, hf, hl, hs, hmiss]

/-- A login_complete with well-formed fields and an unknown state_id is
answered with the Invalid-state error and returns the store untouched. -/
theorem login_complete_unknown_state (w : World) (p : LoginCompletePayload)
    (o : LoginCompleteOracle) (r : AuthResponse) (sid : String)
    (hr : p.response = some r) (hs : p.state_id = some sid)
    (hmiss : lookupA w.authentication_states sid = none) :
    login_complete w p o = (.err .stateNotFound, w) := by
  simp [login_complete, hr, hs, hmiss]

/-- A successful register_complete consumed its state_id: the request had
well-formed fields and the final store is the initial one with the entry
removed. -/
theorem register_complete_ok_shape (w : World) (p : RegisterCompletePayload)
    (o : RegisterCompleteOracle) (u : Unit) (w' : World)
    (h : register_complete w p o = (.ok u, w')) :
    ∃ e f l sid, p.email = some e ∧ validEmail e = true
      ∧ p.first_name = some f ∧ p.last_name = some l
      ∧ p.state_id = some sid
      ∧ w'.registration_states = eraseA w.registration_states sid := by
  rcases p with ⟨pe, pf, pl, ps, pr⟩
  cases pe with
  | none => simp [register_complete] at h
  | some e =>
      by_cases hv : validEmail e = true
      · cases pf with
        | none => simp [register_complete, hv] at h
        | some f =>
            cases pl with
            | none => simp [register_complete, hv] at h
            | some l =>
                cases ps with
                | none => simp [register_complete, hv] at h
                | some sid =>
                    cases hlk : lookupA w.registration_states sid with
                    | none => simp [register_complete, hv, hlk] at h
                    | some st =>
                        refine ⟨e, f, l, sid, rfl, hv, rfl, rfl, rfl, ?_⟩
                        have h2 :
                            (register_complete w ⟨some e, some f, some l, some sid, pr⟩ o).2
                              = w' := congrArg Prod.snd h
                        simp only [register_complete, hv, hlk] at h2
                        rw [← h2]
                        simpa using register_complete_core_states _ e f l pr o
      · simp [register_complete, hv] at h

/-- A successful login_complete consumed its state_id: the request had both
fields and the final store is the initial one with the entry removed. -/
theorem login_complete_ok_shape (w : World) (p : LoginCompletePayload)
    (o : LoginCompleteOracle) (u : Unit) (w' : World)
    (h : login_complete w p o = (.ok u, w')) :
    ∃ r sid, p.response = some r ∧ p.state_id = some sid
      ∧ w'.authentication_states = eraseA w.authentication_states sid := by
  rcases p with ⟨pr, ps⟩
  cases pr with
  | none => simp [login_complete] at h
  | some r =>
      cases ps with
      | none => simp [login_complete] at h
      | some sid =>
          cases hlk : lookupA w.authentication_states sid with
          | none => simp [login_complete, hlk] at h
          | some st =>
              refine ⟨r, sid, rfl, rfl, ?_⟩
              have h2 : (login_complete w ⟨some r, some sid⟩ o).2 = w' :=
                congrArg Prod.snd h
              simp only [login_complete, hlk] at h2
              rw [← h2]
              simpa using login_complete_core_states _ r st o

/-- C1: for every state_id that is not currently present in the
ceremony-state store, register_complete and login_complete fail with the
StateNotFound (Invalid-state) error and leave the whole world unchanged;
and after any successful completion the state_id has been consumed, so a
second completion attempt with the same payload fails with StateNotFound
and again leaves the world unchanged. -/
theorem C1_state_not_found_exactly_once :
    (∀ (w : World) (p : RegisterCompletePayload) (o : RegisterCompleteOracle)
        (e f l sid : String), p.email = some e → validEmail e = true →
        p.first_name = some f → p.last_name = some l → p.state_id = some sid →
        lookupA w.registration_states sid = none →
        register_complete w p o = (.err .stateNotFound, w))
    ∧ (∀ (w : World) (p : LoginCompletePayload) (o : LoginCompleteOracle)
        (r : AuthResponse) (sid : String), p.response = some r →
        p.state_id = some sid → lookupA w.authentication_states sid = none →
        login_complete w p o = (.err .stateNotFound, w))
    ∧ (∀ (w : World) (p : RegisterCompletePayload)
        (o o₂ : RegisterCompleteOracle) (u : Unit) (w' : World),
        register_complete w p o = (.ok u, w') →
        register_complete w' p o₂ = (.err .stateNotFound, w'))
    ∧ (∀ (w : World) (p : LoginCompletePayload)
        (o o₂ : LoginCompleteOracle) (u : Unit) (w' : World),
        login_complete w p o = (.ok u, w') →
        login_complete w' p o₂ = (.err .stateNotFound, w')) := by
  refine ⟨?_, ?_, ?_, ?_⟩
  · intro w p o e f l sid he hv hf hl hs hmiss
    exact register_complete_unknown_state w p o e f l sid he hv hf hl hs hmiss
  · intro w p o r sid hr hs hmiss
    exact login_complete_unknown_state w p o r sid hr hs hmiss
  · intro w p o o₂ u w' h
    obtain ⟨e, f, l, sid, he, hv, hf, hl, hs, hw⟩ :=
      register_complete_ok_shape w p o u w' h
    have hmiss : lookupA w'.registration_states sid = none := by
      rw [hw, lookupA_eraseA]
      simp
    exact register_complete_unknown_state w' p o₂ e f l sid he hv hf hl hs hmiss
  · intro w p o o₂ u w' h
    obtain ⟨r, sid, hr, hs, hw⟩ := login_complete_ok_shape w p o u w' h
    have hmiss : lookupA w'.authentication_states sid = none := by
      rw [hw, lookupA_eraseA]
      simp
    exact login_complete_unknown_state w' p o₂ r sid hr hs hmiss

/-- Witness for C1 at concrete inputs: an unknown state_id is rejected with
the world unchanged for both handlers, and a successful registration
completion followed by a retry of the same request hits StateNotFound. -/
theorem C1_witness :
    (register_complete sampleWorld
        ⟨some "b@x.com", some "Jean", some "Dupont", some "missing", some ⟨true⟩⟩
        ⟨some 9, false, false, false, "tok2", false⟩
      = (.err .stateNotFound, sampleWorld))
    ∧ (login_complete sampleWorld
        ⟨some ⟨true, ⟨true, true, some "authchal"⟩⟩, some "missing"⟩
        ⟨true, false⟩
      = (.err .stateNotFound, sampleWorld))
    ∧ (register_complete
        (register_complete sampleWorld
          ⟨some "b@x.com", some "Jean", some "Dupont", some "sid", some ⟨true⟩⟩
          ⟨some 9, false, false, false, "tok2", false⟩).2
        ⟨some "b@x.com", some "Jean", some "Dupont", some "sid", some ⟨true⟩⟩
        ⟨some 9, false, false, false, "tok2", false⟩
      = (.err .stateNotFound,
        (register_complete sampleWorld
          ⟨some "b@x.com", some "Jean", some "Dupont", some "sid", some ⟨true⟩⟩
          ⟨some 9, false, false, false, "tok2", false⟩).2)) := by
  refine ⟨?_, ?_, ?_⟩
  · exact C1_state_not_found_exactly_once.1 sampleWorld _ _ "b@x.com" "Jean"
      "Dupont" "missing" rfl (by decide) rfl rfl rfl (by decide)
  · exact C1_state_not_found_exactly_once.2.1 sampleWorld _ _
      ⟨true, ⟨true, true, some "authchal"⟩⟩ "missing" rfl rfl (by decide)
  · exact C1_state_not_found_exactly_once.2.2.1 sampleWorld
      ⟨some "b@x.com", some "Jean", some "Dupont", some "sid", some ⟨true⟩⟩
      ⟨some 9, false, false, false, "tok2", false⟩
      ⟨some 9, false, false, false, "tok2", false⟩ ()
      (register_complete sampleWorld
        ⟨some "b@x.com", some "Jean", some "Dupont", some "sid", some ⟨true⟩⟩
        ⟨some 9, false, false, false, "tok2", false⟩).2
      (by decide)

/-- C2: whenever the challenge embedded in the client data of an
authentication response differs from the server challenge recorded at begin
time, complete_authentication fails with the challenge-mismatch error for
every possible verdict of the crypto collaborator's finish call, and a
login_complete built on such a response fails with UNAUTHORIZED, leaving
the session flag and the event trace untouched. -/
theorem C2_challenge_mismatch_no_session :
    (∀ (cd : ClientData) (sc : String) (finishOk : Bool) (c : String),
        cd.utf8Ok = true → cd.jsonOk = true → cd.challenge = some c →
        c ≠ sc →
        complete_authentication cd sc finishOk = .error .challengeMismatch)
    ∧ (∀ (w : World) (p : LoginCompletePayload) (o : LoginCompleteOracle)
        (r : AuthResponse) (sid : String) (st : TimedStoredState) (c : String),
        p.response = some r → p.state_id = some sid →
        lookupA w.authentication_states sid = some st →
        r.parseOk = true → r.client_data.utf8Ok = true →
        r.client_data.jsonOk = true → r.client_data.challenge = some c →
        c ≠ st.server_challenge →
        login_complete w p o =
          (.err (.authenticationFailed .challengeMismatch),
            { w with authentication_states :=
                (eraseA w.authentication_states sid) })
        ∧ ((login_complete w p o).2).session_authenticated
            = w.session_authenticated
        ∧ ((login_complete w p o).2).events = w.events) := by
  constructor
  · intro cd sc finishOk c h1 h2 h3 h4
    simp [complete_authentication, h1, h2, h3, h4]
  · intro w p o r sid st c hr hs hlk hp h1 h2 h3 h4
    have hmain : login_complete w p o =
        (.err (.authenticationFailed .challengeMismatch),
          { w with authentication_states :=
              (eraseA w.authentication_states sid) }) := by
      simp [login_complete, login_complete_core, complete_authentication,
        hr, hs, hlk, hp, h1, h2, h3, h4]
    refine ⟨hmain, ?_, ?_⟩ <;> rw [hmain]

/-- Witness for C2 at a concrete input: a live authentication state with
server challenge authchal and a signed response embedding the challenge
value wrong is rejected with the challenge mismatch even though the crypto
collaborator would accept the signature (finishOk set), and the session
stays unauthenticated. -/
theorem C2_witness :
    login_complete sampleWorld
        ⟨some ⟨true, ⟨true, true, some "wrong"⟩⟩, some "aid"⟩ ⟨true, false⟩
      = (.err (.authenticationFailed .challengeMismatch),
          { sampleWorld with authentication_states :=
              (eraseA sampleWorld.authentication_states "aid") })
    ∧ ((login_complete sampleWorld
        ⟨some ⟨true, ⟨true, true, some "wrong"⟩⟩, some "aid"⟩
        ⟨true, false⟩).2).session_authenticated
        = sampleWorld.session_authenticated := by
  have h := C2_challenge_mismatch_no_session.2 sampleWorld
    ⟨some ⟨true, ⟨true, true, some "wrong"⟩⟩, some "aid"⟩ ⟨true, false⟩
    ⟨true, ⟨true, true, some "wrong"⟩⟩ "aid" ⟨5, "authchal"⟩ "wrong"
    rfl rfl (by decide) rfl rfl rfl rfl (by decide)
  exact ⟨h.1, h.2.1⟩

/-- C3: the completion handlers do hold the ceremony-state store write lock
across external collaborator calls — the write guards taken for the
take-and-remove are dropped only at handler exit, so the crypto finish, the
user/token persistence, the mail delivery and the session insertion all run
with the lock held.  This refutes the lock discipline the claim states and
evaluates the success-path traces of both handlers. -/
theorem C3_lock_held_across_external_calls :
    heldDuringExternal .registrationStates register_complete_ops = true
    ∧ heldDuringExternal .authenticationStates login_complete_ops = true := by
  decide

/-- C4 counterexample: at a concrete request whose crypto verification is
rejected, register_complete answers with the ceremony-failure error whose
status is INTERNAL_SERVER_ERROR — the server-error status, not the
authorization status — so the crypto rejection is not surfaced as an
authorization failure distinguishable from a server error in both
handlers. -/
theorem C4_counterexample :
    (register_complete sampleWorld
        ⟨some "b@x.com", some "Jean", some "Dupont", some "sid", some ⟨true⟩⟩
        ⟨none, false, false, false, "tok2", false⟩).1
      = .err .ceremonyFailure
    ∧ HandlerError.status .ceremonyFailure = .internalServerError
    ∧ HandlerError.status .ceremonyFailure ≠ Status.unauthorized := by
  decide

/-- C4 (amended): when the crypto collaborator rejects a ceremony
completion, login_complete surfaces it with the UNAUTHORIZED status,
distinguishable from a server error, but register_complete surfaces it with
the INTERNAL_SERVER_ERROR status — indistinguishable from a server
error. -/
theorem C4_crypto_rejection_statuses :
    (∀ (w : World) (p : RegisterCompletePayload) (o : RegisterCompleteOracle)
        (e f l sid : String) (st : StoredRegistrationState) (r : RegResponse),
        p.email = some e → validEmail e = true → p.first_name = some f →
        p.last_name = some l → p.state_id = some sid →
        lookupA w.registration_states sid = some st →
        p.response = some r → r.wellFormed = true → o.finishResult = none →
        (register_complete w p o).1 = .err .ceremonyFailure
        ∧ HandlerError.status .ceremonyFailure = .internalServerError)
    ∧ (∀ (w : World) (p : LoginCompletePayload) (o : LoginCompleteOracle)
        (r : AuthResponse) (sid : String) (st : TimedStoredState),
        p.response = some r → p.state_id = some sid →
        lookupA w.authentication_states sid = some st →
        r.parseOk = true → r.client_data.utf8Ok = true →
        r.client_data.jsonOk = true →
        r.client_data.challenge = some st.server_challenge →
        o.finishOk = false →
        (login_complete w p o).1
          = .err (.authenticationFailed .authenticationRejected)
        ∧ HandlerError.status (.authenticationFailed .authenticationRejected)
            = .unauthorized
        ∧ Status.unauthorized ≠ Status.internalServerError) := by
  constructor
  · intro w p o e f l sid st r he hv hf hl hs hlk hr hwf hfin
    constructor
    · simp [register_complete, register_complete_core, complete_registration,
        he, hv, hf, hl, hs, hlk, hr, hwf, hfin]
    · rfl
  · intro w p o r sid st hr hs hlk hp h1 h2 h3 hfin
    refine ⟨?_, rfl, by decide⟩
    simp [login_complete, login_complete_core, complete_authentication,
      hr, hs, hlk, hp, h1, h2, h3, hfin]

/-- Witness for C4 (amended) at concrete inputs: a rejected registration
ceremony is answered with a 500-class error and a rejected authentication
ceremony with a 401-class error. -/
theorem C4_witness :
    ((register_complete sampleWorld
        ⟨some "b@x.com", some "Jean", some "Dupont", some "sid", some ⟨true⟩⟩
        ⟨none, false, false, false, "tok2", false⟩).1
      = .err .ceremonyFailure
      ∧ HandlerError.status .ceremonyFailure = .internalServerError)
    ∧ ((login_complete sampleWorld
        ⟨some ⟨true, ⟨true, true, some "authchal"⟩⟩, some "aid"⟩
        ⟨false, false⟩).1
      = .err (.authenticationFailed .authenticationRejected)
      ∧ HandlerError.status (.authenticationFailed .authenticationRejected)
          = .unauthorized) := by
  constructor
  · exact C4_crypto_rejection_statuses.1 sampleWorld _ _ "b@x.com" "Jean"
      "Dupont" "sid" ⟨7, "chal"⟩ ⟨true⟩ rfl (by decide) rfl rfl rfl
      (by decide) rfl rfl rfl
  · have h := C4_crypto_rejection_statuses.2 sampleWorld
      ⟨some ⟨true, ⟨true, true, some "authchal"⟩⟩, some "aid"⟩ ⟨false, false⟩
      ⟨true, ⟨true, true, some "authchal"⟩⟩ "aid" ⟨5, "authchal"⟩
      rfl rfl (by decide) rfl rfl rfl rfl rfl
    exact ⟨h.1, h.2.1⟩

/-- C5: for every syntactically valid email, register_begin without reset
mode fails with the identity-conflict error when an account for that email
already exists, leaving the world unchanged; with reset mode set the same
call skips the existence check and succeeds, storing the fresh ceremony
state, whatever the user store holds. -/
theorem C5_identity_conflict_and_reset_mode :
    (∀ (w : World) (p : RegisterBeginPayload) (o : RegisterBeginOracle)
        (e : String), p.email = some e → validEmail e = true →
        p.reset_mode = some false → o.existsFault = false →
        (lookupA w.db.users e).isSome = true →
        register_begin w p o = (.err .identityConflict, w))
    ∧ (∀ (w : World) (p : RegisterBeginPayload) (o : RegisterBeginOracle)
        (e : String), p.email = some e → validEmail e = true →
        p.reset_mode = some true →
        register_begin w p o =
          (.ok (o.challenge, o.state_id),
            { w with registration_states :=
                (insertA w.registration_states o.state_id
                  ⟨o.reg_state, o.challenge⟩) })) := by
  constructor
  · intro w p o e he hv hm hfault hexists
    simp [register_begin, he, hv, hm, hfault, user_exists, unwrapOr, hexists]
  · intro w p o e he hv hm
    simp [register_begin, he, hv, hm]

/-- Witness for C5 at a concrete input: the registered address rejected
without reset mode and accepted with it. -/
theorem C5_witness :
    register_begin sampleWorld ⟨some "a@x.com", some false⟩
        ⟨false, "chal2", 8, "sid2"⟩
      = (.err .identityConflict, sampleWorld)
    ∧ register_begin sampleWorld ⟨some "a@x.com", some true⟩
        ⟨false, "chal2", 8, "sid2"⟩
      = (.ok ("chal2", "sid2"),
          { sampleWorld with registration_states :=
              (insertA sampleWorld.registration_states "sid2" ⟨8, "chal2"⟩) }) := by
  constructor
  · exact C5_identity_conflict_and_reset_mode.1 sampleWorld _ _ "a@x.com"
      rfl (by decide) rfl rfl (by decide)
  · exact C5_identity_conflict_and_reset_mode.2 sampleWorld _ _ "a@x.com"
      rfl (by decide) rfl

/-- C6: when registration completion succeeds cryptographically and every
collaborator succeeds, the handler performs exactly — and in this order —
the credential recording, the user creation (with the given names and
verified false), the credential attachment, the validation-token issuance
and the dispatch of a validation mail whose body embeds the token, then
returns success. -/
theorem C6_registration_success_effects :
    ∀ (w : World) (p : RegisterCompletePayload) (o : RegisterCompleteOracle)
      (e f l sid : String) (st : StoredRegistrationState) (r : RegResponse)
      (pk : Passkey),
      p.email = some e → validEmail e = true → p.first_name = some f →
      p.last_name = some l → p.state_id = some sid →
      lookupA w.registration_states sid = some st →
      p.response = some r → r.wellFormed = true → o.finishResult = some pk →
      o.createFault = false → o.setPasskeyFault = false →
      o.tokenFault = false → o.mailFault = false →
      (register_complete w p o).1 = .ok ()
      ∧ ((register_complete w p o).2).events = w.events ++
          [.credRecorded e, .userCreated e f l, .passkeyAttached e,
            .tokenIssued e o.tokenValue,
            .mailSent e accountValidationSubject
              (validationMailBody o.tokenValue)]
      ∧ lookupA ((register_complete w p o).2).db.users e
          = some ⟨f, l, false, some pk⟩
      ∧ lookupA ((register_complete w p o).2).db.tokens o.tokenValue = some e
      ∧ lookupA ((register_complete w p o).2).credential_store e = some pk
      ∧ (∃ pre, validationMailBody o.tokenValue = pre ++ o.tokenValue) := by
  intro w p o e f l sid st r pk he hv hf hl hs hlk hr hwf hfin hc hsp ht hm
  have hrun : register_complete w p o =
      ((.ok (), { w with
          registration_states := (eraseA w.registration_states sid),
          credential_store := (insertA w.credential_store e pk),
          db := { users := (insertA (insertA w.db.users e ⟨f, l, false, none⟩)
                    e ⟨f, l, false, some pk⟩),
                  tokens := (insertA w.db.tokens o.tokenValue e) },
          events := (w.events ++
            [.credRecorded e, .userCreated e f l, .passkeyAttached e,
              .tokenIssued e o.tokenValue,
              .mailSent e accountValidationSubject
                (validationMailBody o.tokenValue)]) }) :
        Outcome Unit × World) := by
    simp [register_complete, register_complete_core, complete_registration,
      user_create, user_set_passkey, token_generate,
      he, hv, hf, hl, hs, hlk, hr, hwf, hfin, hc, hsp, ht, hm,
      lookupA_insertA]
  rw [hrun]
  refine ⟨rfl, rfl, ?_, ?_, ?_, ?_⟩
  · simp [lookupA_insertA]
  · simp [lookupA_insertA]
  · simp [lookupA_insertA]
  · exact ⟨"Click here to validate your account: http://" ++ DOMAIN ++ ":"
      ++ toString HTTP_PORT ++ "/validate/", rfl⟩

/-- Witness for C6 at a concrete input: a fresh registration for b@x.com on
the sample world, with the crypto collaborator accepting and every
collaborator succeeding. -/
theorem C6_witness :
    (register_complete sampleWorld
        ⟨some "b@x.com", some "Anna", some "Blanc", some "sid", some ⟨true⟩⟩
        ⟨some 9, false, false, false, "tok2", false⟩).1 = .ok ()
    ∧ ((register_complete sampleWorld
        ⟨some "b@x.com", some "Anna", some "Blanc", some "sid", some ⟨true⟩⟩
        ⟨some 9, false, false, false, "tok2", false⟩).2).events
        = sampleWorld.events ++
          [.credRecorded "b@x.com", .userCreated "b@x.com" "Anna" "Blanc",
            .passkeyAttached "b@x.com", .tokenIssued "b@x.com" "tok2",
            .mailSent "b@x.com" accountValidationSubject
              (validationMailBody "tok2")]
    ∧ lookupA ((register_complete sampleWorld
        ⟨some "b@x.com", some "Anna", some "Blanc", some "sid", some ⟨true⟩⟩
        ⟨some 9, false, false, false, "tok2", false⟩).2).db.users "b@x.com"
        = some ⟨"Anna", "Blanc", false, some 9⟩ := by
  have h := C6_registration_success_effects sampleWorld
    ⟨some "b@x.com", some "Anna", some "Blanc", some "sid", some ⟨true⟩⟩
    ⟨some 9, false, false, false, "tok2", false⟩
    "b@x.com" "Anna" "Blanc" "sid" ⟨7, "chal"⟩ ⟨true⟩ 9
    rfl (by decide) rfl rfl rfl (by decide) rfl rfl rfl rfl rfl rfl rfl
  exact ⟨h.1, h.2.1, h.2.2.1⟩

/-- C9: a completion with a live state_id but a malformed client response is
not atomic — the state is removed before the response is parsed, so the
malformed-response error consumes the state and a retry of the same request
fails with StateNotFound, for both completion handlers. -/
theorem C9_malformed_response_consumes_state :
    (∀ (w : World) (p : RegisterCompletePayload) (o : RegisterCompleteOracle)
        (e f l sid : String) (st : StoredRegistrationState) (r : RegResponse),
        p.email = some e → validEmail e = true → p.first_name = some f →
        p.last_name = some l → p.state_id = some sid →
        lookupA w.registration_states sid = some st →
        p.response = some r → r.wellFormed = false →
        register_complete w p o =
          (.err .malformedResponse,
            { w with registration_states :=
                (eraseA w.registration_states sid) })
        ∧ lookupA ((register_complete w p o).2).registration_states sid = none
        ∧ ∀ (o₂ : RegisterCompleteOracle),
            register_complete ((register_complete w p o).2) p o₂
              = (.err .stateNotFound, (register_complete w p o).2))
    ∧ (∀ (w : World) (p : LoginCompletePayload) (o : LoginCompleteOracle)
        (r : AuthResponse) (sid : String) (st : TimedStoredState),
        p.response = some r → p.state_id = some sid →
        lookupA w.authentication_states sid = some st → r.parseOk = false →
        login_complete w p o =
          (.err .malformedResponse,
            { w with authentication_states :=
                (eraseA w.authentication_states sid) })
        ∧ lookupA ((login_complete w p o).2).authentication_states sid = none
        ∧ ∀ (o₂ : LoginCompleteOracle),
            login_complete ((login_complete w p o).2) p o₂
              = (.err .stateNotFound, (login_complete w p o).2)) := by
  constructor
  · intro w p o e f l sid st r he hv hf hl hs hlk hr hwf
    have hmain : register_complete w p o =
        (.err .malformedResponse,
          { w with registration_states :=
              (eraseA w.registration_states sid) }) := by
      simp [register_complete, register_complete_core,
        he, hv, hf, hl, hs, hlk, hr, hwf]
    have hnone :
        lookupA ((register_complete w p o).2).registration_states sid = none := by
      rw [hmain]
      simp [lookupA_eraseA]
    refine ⟨hmain, hnone, ?_⟩
    intro o₂
    exact register_complete_unknown_state _ p o₂ e f l sid he hv hf hl hs hnone
  · intro w p o r sid st hr hs hlk hp
    have hmain : login_complete w p o =
        (.err .malformedResponse,
          { w with authentication_states :=
              (eraseA w.authentication_states sid) }) := by
      simp [login_complete, login_complete_core, hr, hs, hlk, hp]
    have hnone :
        lookupA ((login_complete w p o).2).authentication_states sid
          = none := by
      rw [hmain]
      simp [lookupA_eraseA]
    refine ⟨hmain, hnone, ?_⟩
    intro o₂
    exact login_complete_unknown_state _ p o₂ r sid hr hs hnone

/-- Witness for C9 at a concrete input: a live registration state consumed
by a malformed response, after which the retry hits StateNotFound. -/
theorem C9_witness :
    register_complete sampleWorld
        ⟨some "b@x.com", some "Jean", some "Dupont", some "sid", some ⟨false⟩⟩
        ⟨some 9, false, false, false, "tok2", false⟩
      = (.err .malformedResponse,
          { sampleWorld with registration_states :=
              (eraseA sampleWorld.registration_states "sid") })
    ∧ register_complete
        (register_complete sampleWorld
          ⟨some "b@x.com", some "Jean", some "Dupont", some "sid", some ⟨false⟩⟩
          ⟨some 9, false, false, false, "tok2", false⟩).2
        ⟨some "b@x.com", some "Jean", some "Dupont", some "sid", some ⟨false⟩⟩
        ⟨some 9, false, false, false, "tok2", false⟩
      = (.err .stateNotFound,
          (register_complete sampleWorld
            ⟨some "b@x.com", some "Jean", some "Dupont", some "sid", some ⟨false⟩⟩
            ⟨some 9, false, false, false, "tok2", false⟩).2) := by
  have h := C9_malformed_response_consumes_state.1 sampleWorld
    ⟨some "b@x.com", some "Jean", some "Dupont", some "sid", some ⟨false⟩⟩
    ⟨some 9, false, false, false, "tok2", false⟩
    "b@x.com" "Jean" "Dupont" "sid" ⟨7, "chal"⟩ ⟨false⟩
    rfl (by decide) rfl rfl rfl (by decide) rfl rfl
  exact ⟨h.1, h.2.2 _⟩

/-- C10: inside login_begin, after the existence check passes, the verified
check unwraps the user lookup — whenever the exists call reports true but
the subsequent get call fails, the handler panics instead of returning an
error response. -/
theorem C10_login_begin_get_unwrap_panics :
    ∀ (w : World) (p : LoginBeginPayload) (o : LoginBeginOracle) (e : String),
      p.email = some e → validEmail e = true → o.existsFault = false →
      (lookupA w.db.users e).isSome = true → o.getFault = true →
      login_begin w p o = (.panicked, w) := by
  intro w p o e he hv hef hex hgf
  simp [login_begin, user_exists, user_get, unwrapOr, he, hv, hef, hex, hgf]

/-- Witness for C10 at a concrete input: the registered address with a
faulting get call panics the handler. -/
theorem C10_witness :
    login_begin sampleWorld ⟨some "a@x.com"⟩
        ⟨false, true, true, "chal3", 6, "sid3"⟩
      = (.panicked, sampleWorld) :=
  C10_login_begin_get_unwrap_panics sampleWorld ⟨some "a@x.com"⟩
    ⟨false, true, true, "chal3", 6, "sid3"⟩ "a@x.com"
    rfl (by decide) rfl (by decide) rfl

/-! ## Shape lemmas for the database collaborators -/

/-- A successful user_verify only rewrites the users map. -/
theorem user_verify_ok_tokens (db : Db) (f : Bool) (e : String) (db' : Db)
    (h : user_verify db f e = .ok db') : db'.tokens = db.tokens := by
  unfold user_verify at h
  split at h
  · exact absurd h (by simp)
  · split at h
    · exact absurd h (by simp)
    · cases h
      rfl

/-- A successful user_create rewrites the users map to hold the fresh
unverified record and keeps the tokens map. -/
theorem user_create_ok_shape (db : Db) (f : Bool) (e fn ln : String)
    (db' : Db) (h : user_create db f e fn ln = .ok db') :
    db'.users = insertA db.users e ⟨fn, ln, false, none⟩
      ∧ db'.tokens = db.tokens := by
  unfold user_create at h
  split at h
  · exact absurd h (by simp)
  · cases h
    exact ⟨rfl, rfl⟩

/-- A successful user_set_passkey rewrites the looked-up record with the
passkey attached and keeps the tokens map. -/
theorem user_set_passkey_ok_shape (db : Db) (f : Bool) (e : String)
    (pk : Passkey) (db' : Db) (h : user_set_passkey db f e pk = .ok db') :
    ∃ u0, lookupA db.users e = some u0
      ∧ db'.users = insertA db.users e { u0 with passkey := some pk }
      ∧ db'.tokens = db.tokens := by
  unfold user_set_passkey at h
  split at h
  · exact absurd h (by simp)
  · split at h
    · exact absurd h (by simp)
    · next u0 heq =>
        cases h
        exact ⟨u0, heq, rfl, rfl⟩

/-- A successful token_generate stores the token under its value, returns
that value, and keeps the users map. -/
theorem token_generate_ok_shape (db : Db) (f : Bool) (e tv t' : String)
    (db' : Db) (h : token_generate db f e tv = .ok (t', db')) :
    t' = tv ∧ db'.users = db.users
      ∧ db'.tokens = insertA db.tokens tv e := by
  unfold token_generate at h
  split at h
  · exact absurd h (by simp)
  · cases h
    exact ⟨rfl, rfl, rfl⟩

/-- A successful token_consume returns the owner recorded for the token and
removes exactly that token, keeping the users map. -/
theorem token_consume_ok_shape (db : Db) (t e : String) (db' : Db)
    (h : token_consume db t = .ok (e, db')) :
    lookupA db.tokens t = some e ∧ db'.users = db.users
      ∧ db'.tokens = eraseA db.tokens t := by
  unfold token_consume at h
  split at h
  · exact absurd h (by simp)
  · next email heq =>
      cases h
      exact ⟨heq, rfl, rfl⟩

/-- C7: token consumption is exactly-once.  Consuming an issued token
yields its owner and removes it, after which a second consume fails;
through the validation endpoint the token is gone after the first call and
a retry is answered with the invalid-token redirect without touching the
world; through the recovery endpoint the first consume routes the owner
into reset mode and the retry is answered with the recovery-failed
redirect; and consuming a never-issued token fails deterministically at
both endpoints, leaving the world unchanged. -/
theorem C7_token_exactly_once :
    (∀ (w : World) (t email : String),
        lookupA w.db.tokens t = some email →
        token_consume w.db t
          = .ok (email, { w.db with tokens := (eraseA w.db.tokens t) })
        ∧ token_consume { w.db with tokens := (eraseA w.db.tokens t) } t
          = .error ())
    ∧ (∀ (w : World) (t email : String) (f f' : Bool),
        lookupA w.db.tokens t = some email →
        lookupA ((validate_account w t f).2).db.tokens t = none
        ∧ validate_account ((validate_account w t f).2) t f'
            = (.registerInvalidToken, (validate_account w t f).2))
    ∧ (∀ (w : World) (t email : String),
        lookupA w.db.tokens t = some email →
        reset_account w t
          = (.registerResetMode email,
              { w with db := { w.db with tokens := (eraseA w.db.tokens t) } })
        ∧ reset_account (reset_account w t).2 t
            = (.registerRecoveryFailed, (reset_account w t).2))
    ∧ (∀ (w : World) (t : String) (f : Bool),
        lookupA w.db.tokens t = none →
        validate_account w t f = (.registerInvalidToken, w)
        ∧ reset_account w t = (.registerRecoveryFailed, w)) := by
  have hconsume : ∀ (db : Db) (t email : String),
      lookupA db.tokens t = some email →
      token_consume db t = .ok (email, { db with tokens := (eraseA db.tokens t) }) :=
    fun db t email h => by simp [token_consume, h]
  have hgone : ∀ (db : Db) (t : String),
      lookupA db.tokens t = none → token_consume db t = .error () :=
    fun db t h => by simp [token_consume, h]
  have hval_unissued : ∀ (w2 : World) (t : String) (f2 : Bool),
      lookupA w2.db.tokens t = none →
      validate_account w2 t f2 = (.registerInvalidToken, w2) :=
    fun w2 t f2 hh => by
      unfold validate_account
      rw [hgone _ t hh]
  have hreset_unissued : ∀ (w2 : World) (t : String),
      lookupA w2.db.tokens t = none →
      reset_account w2 t = (.registerRecoveryFailed, w2) :=
    fun w2 t hh => by
      unfold reset_account
      rw [hgone _ t hh]
  refine ⟨?_, ?_, ?_, ?_⟩
  · intro w t email h
    refine ⟨hconsume w.db t email h, hgone _ t ?_⟩
    simp [lookupA_eraseA]
  · intro w t email f f' h
    have htok : ((validate_account w t f).2).db.tokens
        = eraseA w.db.tokens t := by
      unfold validate_account
      rw [hconsume w.db t email h]
      cases hv : user_verify { w.db with tokens := (eraseA w.db.tokens t) } f
          email with
      | error u => simp [hv]
      | ok db2 =>
          simp only [hv]
          exact user_verify_ok_tokens _ f email db2 hv
    have hnone : lookupA ((validate_account w t f).2).db.tokens t = none := by
      rw [htok]
      simp [lookupA_eraseA]
    exact ⟨hnone, hval_unissued _ t f' hnone⟩
  · intro w t email h
    have hmain : reset_account w t
        = (.registerResetMode email,
            { w with db := { w.db with tokens := (eraseA w.db.tokens t) } }) := by
      unfold reset_account
      rw [hconsume w.db t email h]
    refine ⟨hmain, hreset_unissued _ t ?_⟩
    rw [hmain]
    simp [lookupA_eraseA]
  · intro w t f h
    exact ⟨hval_unissued w t f h, hreset_unissued w t h⟩

/-- Witness for C7 at a concrete input: the issued token tok1 of the sample
world consumed once at each endpoint, then rejected, and a never-issued
token rejected outright. -/
theorem C7_witness :
    (token_consume sampleWorld.db "tok1"
      = .ok ("a@x.com",
          { sampleWorld.db with tokens := (eraseA sampleWorld.db.tokens "tok1") }))
    ∧ (validate_account ((validate_account sampleWorld "tok1" false).2)
        "tok1" false
      = (.registerInvalidToken, (validate_account sampleWorld "tok1" false).2))
    ∧ (reset_account sampleWorld "tok1"
      = (.registerResetMode "a@x.com",
          { sampleWorld with db :=
              { sampleWorld.db with tokens := (eraseA sampleWorld.db.tokens "tok1") } }))
    ∧ (validate_account sampleWorld "ghost" false
      = (.registerInvalidToken, sampleWorld)) := by
  refine ⟨?_, ?_, ?_, ?_⟩
  · exact (C7_token_exactly_once.1 sampleWorld "tok1" "a@x.com" (by decide)).1
  · exact (C7_token_exactly_once.2.1 sampleWorld "tok1" "a@x.com" false false
      (by decide)).2
  · exact (C7_token_exactly_once.2.2.1 sampleWorld "tok1" "a@x.com"
      (by decide)).1
  · exact (C7_token_exactly_once.2.2.2 sampleWorld "ghost" false
      (by decide)).1

/-! ## Verified-flag flow analysis for C8 -/

/-- Relation between two users maps: every key either keeps its old binding
or now holds a record whose verified flag is false.  No handler other than
validate_account produces anything outside this relation, which is exactly
what rules a verified-flag flip out. -/
def onlyUnverifiedWrites
    (users users' : List (String × UserRecord)) : Prop :=
  ∀ e, lookupA users' e = lookupA users e
    ∨ ∃ rec, lookupA users' e = some rec ∧ rec.verified = false

theorem ouw_of_users_eq {users users' : List (String × UserRecord)}
    (h : users' = users) : onlyUnverifiedWrites users users' :=
  fun e => Or.inl (by rw [h])

theorem ouw_trans {u1 u2 u3 : List (String × UserRecord)}
    (h12 : onlyUnverifiedWrites u1 u2) (h23 : onlyUnverifiedWrites u2 u3) :
    onlyUnverifiedWrites u1 u3 := by
  intro e
  rcases h23 e with heq | hrec
  · rcases h12 e with heq' | hrec'
    · exact Or.inl (heq.trans heq')
    · exact Or.inr (by rwa [heq])
  · exact Or.inr hrec

theorem ouw_insert_unverified (users : List (String × UserRecord))
    (e0 : String) (rec : UserRecord) (h : rec.verified = false) :
    onlyUnverifiedWrites users (insertA users e0 rec) := by
  intro e
  by_cases he : e = e0
  · exact Or.inr ⟨rec, by rw [lookupA_insertA, if_pos he], h⟩
  · exact Or.inl (by rw [lookupA_insertA, if_neg he])

/-- Under onlyUnverifiedWrites no record can go from unverified to
verified. -/
theorem noFlip_of_ouw {users users' : List (String × UserRecord)}
    (h : onlyUnverifiedWrites users users') (email : String)
    (u u' : UserRecord) (hu : lookupA users email = some u)
    (huf : u.verified = false) (hu' : lookupA users' email = some u')
    (hu'v : u'.verified = true) : False := by
  rcases h email with heq | ⟨rec, hrec, hrecv⟩
  · rw [heq, hu] at hu'
    cases hu'
    rw [huf] at hu'v
    exact Bool.noConfusion hu'v
  · rw [hrec] at hu'
    cases hu'
    rw [hrecv] at hu'v
    exact Bool.noConfusion hu'v

/-- register_begin never touches the durable store. -/
theorem register_begin_db (w : World) (p : RegisterBeginPayload)
    (o : RegisterBeginOracle) : ((register_begin w p o).2).db = w.db := by
  unfold register_begin
  try dsimp only
  repeat' split <;> try rfl

/-- login_begin never touches the durable store. -/
theorem login_begin_db (w : World) (p : LoginBeginPayload)
    (o : LoginBeginOracle) : ((login_begin w p o).2).db = w.db := by
  unfold login_begin
  try dsimp only
  repeat' split <;> try rfl

/-- The login_complete continuation never touches the durable store. -/
theorem login_complete_core_db (w : World) (r : AuthResponse)
    (st : TimedStoredState) (o : LoginCompleteOracle) :
    ((login_complete_core w r st o).2).db = w.db := by
  unfold login_complete_core
  try dsimp only
  repeat' split <;> try rfl

/-- login_complete never touches the durable store. -/
theorem login_complete_db (w : World) (p : LoginCompletePayload)
    (o : LoginCompleteOracle) : ((login_complete w p o).2).db = w.db := by
  unfold login_complete
  rcases p with ⟨pr, ps⟩
  cases pr with
  | none => rfl
  | some r =>
      cases ps with
      | none => rfl
      | some sid =>
          try dsimp only
          cases hlk : lookupA w.authentication_states sid with
          | none => simp [hlk]
          | some st =>
              simp only [hlk]
              exact login_complete_core_db _ r st o

/-- recover_account never touches the users map. -/
theorem recover_account_users (w : World) (p : RecoverPayload)
    (o : RecoverOracle) :
    ((recover_account w p o).2).db.users = w.db.users := by
  unfold recover_account
  rcases p with ⟨pe⟩
  cases pe with
  | none => rfl
  | some e =>
      try dsimp only
      split
      · rfl
      · cases htg : token_generate w.db o.tokenFault e o.tokenValue with
        | error u => simp [htg]
        | ok pair =>
            rcases pair with ⟨rt, db1⟩
            obtain ⟨hrt, hus, hts⟩ :=
              token_generate_ok_shape w.db o.tokenFault e o.tokenValue rt db1 htg
            simp only [htg]
            try dsimp only
            split <;> exact hus

/-- reset_account never touches the users map. -/
theorem reset_account_users (w : World) (t : String) :
    ((reset_account w t).2).db.users = w.db.users := by
  unfold reset_account
  cases htc : token_consume w.db t with
  | error u => simp [htc]
  | ok pair =>
      rcases pair with ⟨e, db1⟩
      obtain ⟨hlk, hus, hts⟩ := token_consume_ok_shape w.db t e db1 htc
      simp only [htc]
      exact hus

/-- The register_complete continuation writes only unverified records into
the users map. -/
theorem register_complete_core_ouw (w : World) (e f l : String)
    (r : Option RegResponse) (o : RegisterCompleteOracle) :
    onlyUnverifiedWrites w.db.users
      ((register_complete_core w e f l r o).2).db.users := by
  unfold register_complete_core
  rcases r with _ | ⟨resp⟩
  · exact ouw_of_users_eq rfl
  · try dsimp only
    by_cases hwf : (!resp.wellFormed) = true
    · simp only [if_pos hwf]
      exact ouw_of_users_eq rfl
    · simp only [if_neg hwf]
      cases hcr : complete_registration w.credential_store e o.finishResult with
      | error u =>
          simp only [hcr]
          exact ouw_of_users_eq rfl
      | ok store2 =>
          simp only [hcr]
          try dsimp only
          cases hpk : lookupA store2 e with
          | none =>
              simp only [hpk]
              exact ouw_of_users_eq rfl
          | some passkey =>
              simp only [hpk]
              cases hcu : user_create w.db o.createFault e f l with
              | error u =>
                  simp only [hcu]
                  exact ouw_of_users_eq rfl
              | ok db1 =>
                  simp only [hcu]
                  try dsimp only
                  obtain ⟨hdb1u, hdb1t⟩ :=
                    user_create_ok_shape w.db o.createFault e f l db1 hcu
                  have houw1 : onlyUnverifiedWrites w.db.users db1.users := by
                    rw [hdb1u]
                    exact ouw_insert_unverified _ e _ rfl
                  cases hsp : user_set_passkey db1 o.setPasskeyFault e passkey with
                  | error u =>
                      simp only [hsp]
                      exact houw1
                  | ok db2 =>
                      simp only [hsp]
                      try dsimp only
                      obtain ⟨u0, hu0, hdb2u, hdb2t⟩ :=
                        user_set_passkey_ok_shape db1 o.setPasskeyFault e
                          passkey db2 hsp
                      have hu0v : u0.verified = false := by
                        rw [hdb1u, lookupA_insertA, if_pos rfl] at hu0
                        cases hu0
                        rfl
                      have houw2 : onlyUnverifiedWrites w.db.users db2.users := by
                        refine ouw_trans houw1 ?_
                        rw [hdb2u]
                        exact ouw_insert_unverified _ e _ hu0v
                      cases htg : token_generate db2 o.tokenFault e o.tokenValue with
                      | error u =>
                          simp only [htg]
                          exact houw2
                      | ok pair =>
                          rcases pair with ⟨vt, db3⟩
                          obtain ⟨hvt, hdb3u, hdb3t⟩ :=
                            token_generate_ok_shape db2 o.tokenFault e
                              o.tokenValue vt db3 htg
                          simp only [htg]
                          try dsimp only
                          have houw3 : onlyUnverifiedWrites w.db.users db3.users := by
                            rw [hdb3u]
                            exact houw2
                          split <;> exact houw3

/-- register_complete writes only unverified records into the users map. -/
theorem register_complete_ouw (w : World) (p : RegisterCompletePayload)
    (o : RegisterCompleteOracle) :
    onlyUnverifiedWrites w.db.users
      ((register_complete w p o).2).db.users := by
  unfold register_complete
  rcases p with ⟨pe, pf, pl, ps, pr⟩
  cases pe with
  | none => exact ouw_of_users_eq rfl
  | some e =>
      try dsimp only
      by_cases hv : (!validEmail e) = true
      · simp only [if_pos hv]
        exact ouw_of_users_eq rfl
      · simp only [if_neg hv]
        cases pf with
        | none => exact ouw_of_users_eq rfl
        | some f =>
            cases pl with
            | none => exact ouw_of_users_eq rfl
            | some l =>
                cases ps with
                | none => exact ouw_of_users_eq rfl
                | some sid =>
                    try dsimp only
                    cases hlk : lookupA w.registration_states sid with
                    | none =>
                        simp only [hlk]
                        exact ouw_of_users_eq rfl
                    | some st =>
                        simp only [hlk]
                        exact register_complete_core_ouw _ e f l pr o

/-- C8: successfully consuming a validation token marks the owning user as
verified — and this is the only handler step that can flip a user's
verified flag from false to true. -/
theorem C8_validation_only_verification_path :
    (∀ (w : World) (t email : String) (u : UserRecord),
        lookupA w.db.tokens t = some email →
        lookupA w.db.users email = some u →
        (validate_account w t false).1 = .loginValidated
        ∧ lookupA ((validate_account w t false).2).db.users email
            = some { u with verified := true })
    ∧ (∀ (w : World) (s : Step) (email : String) (u u' : UserRecord),
        lookupA w.db.users email = some u → u.verified = false →
        lookupA (stepWorld w s).db.users email = some u' →
        u'.verified = true →
        ∃ t f, s = Step.validate t f) := by
  constructor
  · intro w t email u ht hu
    have hc : token_consume w.db t
        = .ok (email, { w.db with tokens := (eraseA w.db.tokens t) }) := by
      simp [token_consume, ht]
    have hmain : validate_account w t false
        = (.loginValidated,
            { w with db :=
                (⟨insertA w.db.users email { u with verified := true },
                  eraseA w.db.tokens t⟩ : Db) }) := by
      unfold validate_account
      simp [token_consume, user_verify, ht, hu]
    rw [hmain]
    exact ⟨rfl, by simp [lookupA_insertA]⟩
  · intro w s email u u' hu huf hu' hu'v
    cases s <;> simp only [stepWorld] at hu'
    case validate t f => exact ⟨t, f, rfl⟩
    case regBegin p o =>
        exact (noFlip_of_ouw
          (ouw_of_users_eq (congrArg Db.users (register_begin_db w p o)))
          email u u' hu huf hu' hu'v).elim
    case regComplete p o =>
        exact (noFlip_of_ouw (register_complete_ouw w p o)
          email u u' hu huf hu' hu'v).elim
    case loginBegin p o =>
        exact (noFlip_of_ouw
          (ouw_of_users_eq (congrArg Db.users (login_begin_db w p o)))
          email u u' hu huf hu' hu'v).elim
    case loginComplete p o =>
        exact (noFlip_of_ouw
          (ouw_of_users_eq (congrArg Db.users (login_complete_db w p o)))
          email u u' hu huf hu' hu'v).elim
    case recover p o =>
        exact (noFlip_of_ouw
          (ouw_of_users_eq (recover_account_users w p o))
          email u u' hu huf hu' hu'v).elim
    case reset t =>
        exact (noFlip_of_ouw
          (ouw_of_users_eq (reset_account_users w t))
          email u u' hu huf hu' hu'v).elim
    case logoutStep =>
        exact (noFlip_of_ouw
          (ouw_of_users_eq (rfl : ((logout w).2).db.users = w.db.users))
          email u u' hu huf hu' hu'v).elim

/-- Witness for C8 at a concrete input: consuming the sample token flips
the owner to verified, applied to a world whose user starts out
unverified. -/
theorem C8_witness :
    (validate_account
      { sampleWorld with db :=
          { users := [("a@x.com", ⟨"Jean", "Dupont", false, some 3⟩)],
            tokens := [("tok1", "a@x.com")] } } "tok1" false).1
      = .loginValidated
    ∧ lookupA ((validate_account
      { sampleWorld with db :=
          { users := [("a@x.com", ⟨"Jean", "Dupont", false, some 3⟩)],
            tokens := [("tok1", "a@x.com")] } } "tok1" false).2).db.users
      "a@x.com" = some ⟨"Jean", "Dupont", true, some 3⟩ :=
  C8_validation_only_verification_path.1
    { sampleWorld with db :=
        { users := [("a@x.com", ⟨"Jean", "Dupont", false, some 3⟩)],
          tokens := [("tok1", "a@x.com")] } }
    "tok1" "a@x.com" ⟨"Jean", "Dupont", false, some 3⟩
    (by decide) (by decide)

end SLH
